import Mathlib

/-!
Shallow embedding of the stocksmart-manager database core: the schema,
the `stock_balances` view, the row-level-security policy set, the two
trigger functions from `supabase/migrations/*.sql`, and the page-controller
logic the claims touch (`Receipts.handleSubmit`, `Dashboard.fetchStats`).

Conventions of the embedding:
* UUID and identity keys are modelled as `Nat`.
* `NUMERIC(10,2)` quantities are modelled as exact integers (`Int`),
  i.e. values scaled to hundredths; addition and comparison are the same.
* `TIMESTAMPTZ` values are modelled as `Nat` instants.
* SQL `NULL`-able columns are `Option` fields; `auth.uid()` is an
  `Option UserId` (`none` for an unauthenticated caller).
* Row-level security is modelled per PostgreSQL semantics: for each
  table and command the USING predicates of the declared policies are
  OR'd; a command with no declared policy for a table with RLS enabled
  is default-denied (its effective USING predicate is false).
-/

abbrev UserId := Nat
abbrev Uuid := Nat

/-- `app_role` enum from the first migration. -/
inductive AppRole
  | admin
  | manager
  | staff
deriving DecidableEq, Repr

/-- `stock_status` enum from the first migration. -/
inductive StockStatus
  | draft
  | waiting
  | ready
  | done
  | canceled
deriving DecidableEq, Repr

/-- `movement_type` enum from the first migration. -/
inductive MovementType
  | receipt
  | delivery
  | transfer
  | adjustment
deriving DecidableEq, Repr

/-- A `user_roles` row. -/
structure UserRole where
  id : Uuid
  user_id : UserId
  role : AppRole
  created_at : Nat
deriving DecidableEq, Repr

/-- `public.has_role(_user_id, _role)`: SECURITY DEFINER membership test on
`user_roles` (`EXISTS (SELECT 1 FROM user_roles WHERE user_id = _user_id AND
role = _role)`). -/
def has_role (user_roles : List UserRole) (uid : UserId) (r : AppRole) : Bool :=
  user_roles.any fun ur => ur.user_id == uid && ur.role == r

/-- `has_role(auth.uid(), r)` when `auth.uid()` may be NULL: SQL `EXISTS`
with `user_id = NULL` is false, so a NULL uid never holds a role. -/
def authHasRole (uid : Option UserId) (user_roles : List UserRole) (r : AppRole) : Bool :=
  match uid with
  | some u => has_role user_roles u r
  | none => false

/-- A `stock_movements` row (the append-only ledger). -/
structure StockMovement where
  id : Uuid
  product_id : Uuid
  warehouse_id : Uuid
  movement_type : MovementType
  reference_id : Option Uuid
  quantity : Int
  balance_after : Int
  notes : Option String
  created_by : Option UserId
  created_at : Nat
deriving DecidableEq, Repr

/-- A row of the derived `stock_balances` view. -/
structure StockBalance where
  product_id : Uuid
  warehouse_id : Uuid
  quantity : Int
deriving DecidableEq, Repr

/-- Fold one movement into the grouped totals: if a group row for the
movement's (product, warehouse) key exists its sum is extended, otherwise a
new group row is started. -/
def insertIntoBalances (m : StockMovement) : List StockBalance → List StockBalance
  | [] => [⟨m.product_id, m.warehouse_id, m.quantity⟩]
  | b :: bs =>
    if b.product_id == m.product_id && b.warehouse_id == m.warehouse_id then
      { b with quantity := b.quantity + m.quantity } :: bs
    else
      b :: insertIntoBalances m bs

/-- The `stock_balances` view:
`SELECT product_id, warehouse_id, SUM(quantity) FROM stock_movements
GROUP BY product_id, warehouse_id`. -/
def stock_balances : List StockMovement → List StockBalance
  | [] => []
  | m :: ms => insertIntoBalances m (stock_balances ms)

/-- Read the view's quantity for one (product, warehouse) pair; `none` when
the pair has no row in the view. -/
def lookupBalance (bs : List StockBalance) (p w : Uuid) : Option Int :=
  (bs.find? fun b => b.product_id == p && b.warehouse_id == w).map fun b => b.quantity

/-- The movements of the ledger belonging to one (product, warehouse) pair. -/
def movementsFor (ms : List StockMovement) (p w : Uuid) : List StockMovement :=
  ms.filter fun m => m.product_id == p && m.warehouse_id == w

/-- Sum of the signed quantities of a list of movements. -/
def sumQuantities (ms : List StockMovement) : Int :=
  (ms.map fun m => m.quantity).sum

lemma lookupBalance_cons (b : StockBalance) (bs : List StockBalance) (p w : Uuid) :
    lookupBalance (b :: bs) p w =
      if b.product_id == p && b.warehouse_id == w then
        some b.quantity
      else
        lookupBalance bs p w := by
  cases h : (b.product_id == p && b.warehouse_id == w) <;>
    simp [lookupBalance, List.find?, h]

lemma lookupBalance_insertIntoBalances (m : StockMovement) (bs : List StockBalance)
    (p w : Uuid) :
    lookupBalance (insertIntoBalances m bs) p w =
      if m.product_id == p && m.warehouse_id == w then
        some ((lookupBalance bs p w).getD 0 + m.quantity)
      else
        lookupBalance bs p w := by
  induction bs with
  | nil =>
    cases hm : (m.product_id == p && m.warehouse_id == w) <;>
      simp [insertIntoBalances, lookupBalance, List.find?, hm]
  | cons b bs ih =>
    cases hb : (b.product_id == m.product_id && b.warehouse_id == m.warehouse_id) with
    | true =>
      have hb2 := hb
      simp only [Bool.and_eq_true, beq_iff_eq] at hb2
      obtain ⟨hbp, hbw⟩ := hb2
      rw [insertIntoBalances, if_pos hb, lookupBalance_cons, lookupBalance_cons]
      cases hm : (m.product_id == p && m.warehouse_id == w) with
      | true =>
        have hm2 := hm
        simp only [Bool.and_eq_true, beq_iff_eq] at hm2
        obtain ⟨hmp, hmw⟩ := hm2
        simp [hbp, hbw, hmp, hmw]
      | false =>
        have hbpw : (b.product_id == p && b.warehouse_id == w) = false := by
          rw [hbp, hbw]; exact hm
        simp [hbpw, hm]
    | false =>
      rw [insertIntoBalances, if_neg (by simp [hb]), lookupBalance_cons,
        lookupBalance_cons, ih]
      cases hbpw : (b.product_id == p && b.warehouse_id == w) with
      | true =>
        have hm : (m.product_id == p && m.warehouse_id == w) = false := by
          cases hq : (m.product_id == p && m.warehouse_id == w) with
          | false => rfl
          | true =>
            simp only [Bool.and_eq_true, beq_iff_eq] at hbpw hq
            obtain ⟨h1, h2⟩ := hbpw
            obtain ⟨h3, h4⟩ := hq
            rw [h1, h2, h3, h4] at hb
            simp at hb
        simp [hbpw, hm]
      | false =>
        simp [hbpw]

lemma movementsFor_eq_nil_of_not_any (ms : List StockMovement) (p w : Uuid)
    (h : ms.any (fun m => m.product_id == p && m.warehouse_id == w) = false) :
    movementsFor ms p w = [] := by
  induction ms with
  | nil => rfl
  | cons m ms ih =>
    simp only [List.any_cons, Bool.or_eq_false_iff] at h
    have ih2 := ih h.2
    simp only [movementsFor] at ih2 ⊢
    simp [List.filter_cons, h.1, ih2]

/-- C1. For every ledger (every sequence of stock-movement inserts) and every
(product, warehouse) pair: the pair has a row in the `stock_balances` view
iff the ledger holds at least one movement for that pair, and in that case
the view's quantity is exactly the sum of the pair's signed quantities. -/
theorem stock_balances_sums_ledger (ms : List StockMovement) (p w : Uuid) :
    lookupBalance (stock_balances ms) p w =
      if ms.any (fun m => m.product_id == p && m.warehouse_id == w) then
        some (sumQuantities (movementsFor ms p w))
      else
        none := by
  induction ms with
  | nil => simp [stock_balances, lookupBalance, movementsFor]
  | cons m ms ih =>
    rw [stock_balances, lookupBalance_insertIntoBalances, ih]
    cases hm : (m.product_id == p && m.warehouse_id == w) with
    | true =>
      cases hany : ms.any (fun x => x.product_id == p && x.warehouse_id == w) with
      | true =>
        have hcons : movementsFor (m :: ms) p w = m :: movementsFor ms p w := by
          simp [movementsFor, List.filter_cons, hm]
        simp only [hm, hany, List.any_cons, Bool.true_or, if_true, Option.getD_some, hcons]
        simp only [sumQuantities, List.map_cons, List.sum_cons]
        congr 1
        ring
      | false =>
        have hnil := movementsFor_eq_nil_of_not_any ms p w hany
        have hone : movementsFor (m :: ms) p w = [m] := by
          simp only [movementsFor] at hnil ⊢
          simp [List.filter_cons, hm, hnil]
        simp only [hm, hany, List.any_cons, Bool.true_or, if_true,
          Bool.false_eq_true, if_false, Option.getD_none, hone]
        simp [sumQuantities]
    | false =>
      have hsame : movementsFor (m :: ms) p w = movementsFor ms p w := by
        simp [movementsFor, List.filter_cons, hm]
      simp [hm, List.any_cons, hsame]

/-! ## Remaining table rows and the database state -/

/-- A `profiles` row. -/
structure Profile where
  id : UserId
  full_name : String
  email : String
  created_at : Nat
  updated_at : Nat
deriving DecidableEq, Repr

/-- A `warehouses` row. -/
structure Warehouse where
  id : Uuid
  name : String
  code : String
  address : Option String
  is_active : Bool
  created_at : Nat
  updated_at : Nat
deriving DecidableEq, Repr

/-- A `categories` row. -/
structure Category where
  id : Uuid
  name : String
  description : Option String
  created_at : Nat
  updated_at : Nat
deriving DecidableEq, Repr

/-- A `products` row. -/
structure Product where
  id : Uuid
  name : String
  sku : String
  category_id : Option Uuid
  unit_of_measure : String
  reorder_level : Int
  description : Option String
  is_active : Bool
  created_at : Nat
  updated_at : Nat
deriving DecidableEq, Repr

/-- A `receipts` row. -/
structure Receipt where
  id : Uuid
  reference : String
  warehouse_id : Uuid
  supplier_name : String
  status : StockStatus
  scheduled_date : Option String
  received_date : Option Nat
  notes : Option String
  created_by : Option UserId
  created_at : Nat
  updated_at : Nat
deriving DecidableEq, Repr

/-- A `receipt_lines` row. -/
structure ReceiptLine where
  id : Uuid
  receipt_id : Uuid
  product_id : Uuid
  quantity : Int
  received_quantity : Int
  created_at : Nat
deriving DecidableEq, Repr

/-- A `deliveries` row. -/
structure Delivery where
  id : Uuid
  reference : String
  warehouse_id : Uuid
  customer_name : String
  status : StockStatus
  scheduled_date : Option String
  delivered_date : Option Nat
  notes : Option String
  created_by : Option UserId
  created_at : Nat
  updated_at : Nat
deriving DecidableEq, Repr

/-- A `delivery_lines` row. -/
structure DeliveryLine where
  id : Uuid
  delivery_id : Uuid
  product_id : Uuid
  quantity : Int
  delivered_quantity : Int
  created_at : Nat
deriving DecidableEq, Repr

/-- The database state: one list of rows per table of the schema. -/
structure DB where
  profiles : List Profile
  user_roles : List UserRole
  warehouses : List Warehouse
  categories : List Category
  products : List Product
  receipts : List Receipt
  receipt_lines : List ReceiptLine
  deliveries : List Delivery
  delivery_lines : List DeliveryLine
  stock_movements : List StockMovement
deriving DecidableEq, Repr

/-- Errors a statement can surface to the caller. -/
inductive DbError
  | permissionDenied
  | uniqueViolation
  | restrictViolation
deriving DecidableEq, Repr

/-! ## Row-level security -/

/-- The four row-level commands PostgreSQL policies attach to. -/
inductive Op
  | select
  | insert
  | update
  | delete
deriving DecidableEq, Repr

/-- The evaluation context of a policy: `auth.uid()` (NULL when the caller
is unauthenticated) and the `user_roles` table `has_role` consults with
elevated privilege. -/
structure Ctx where
  uid : Option UserId
  user_roles : List UserRole
deriving Repr

/-- RLS UPDATE semantics: rows whose effective USING predicate fails are
invisible to the UPDATE and stay unchanged; visible rows are rewritten by
the statement's SET clause. -/
def rlsUpdate {α : Type} (vis : α → Bool) (f : α → α) (rows : List α) : List α :=
  rows.map fun r => if vis r then f r else r

/-- RLS DELETE semantics: only rows whose effective USING predicate holds
and that match the statement's condition are removed; the rest stay. -/
def rlsDelete {α : Type} (vis : α → Bool) (cond : α → Bool) (rows : List α) : List α :=
  rows.filter fun r => !(vis r && cond r)

/-- The policies declared on `stock_movements` in the first migration:
"Authenticated users can view stock movements" (SELECT, TO authenticated,
USING true) and "System can insert stock movements" (INSERT, WITH CHECK
`auth.uid() IS NOT NULL`). No UPDATE and no DELETE policy exists. -/
def stockMovementsPolicies : List (Op × (Ctx → StockMovement → Bool)) :=
  [(Op.select, fun ctx _ => ctx.uid.isSome),
   (Op.insert, fun ctx _ => ctx.uid.isSome)]

/-- Effective USING predicate of `stock_movements` for a command: the OR of
the declared policies for that command; with RLS enabled and no policy
declared, the command is default-denied (predicate false). -/
def stockMovementsUsing (op : Op) (ctx : Ctx) (r : StockMovement) : Bool :=
  (stockMovementsPolicies.filter fun q => q.1 == op).any fun q => q.2 ctx r

/-- C2. The ledger is immutable: under the declared `stock_movements`
policies, any attempted UPDATE (any SET clause) and any attempted DELETE
(any WHERE condition) by any caller — any uid, any role set — leaves the
`stock_movements` rows exactly unchanged. -/
theorem stock_movements_immutable (ctx : Ctx) (f : StockMovement → StockMovement)
    (cond : StockMovement → Bool) (rows : List StockMovement) :
    rlsUpdate (stockMovementsUsing Op.update ctx) f rows = rows ∧
    rlsDelete (stockMovementsUsing Op.delete ctx) cond rows = rows := by
  have hu : ∀ r, stockMovementsUsing Op.update ctx r = false := fun r => rfl
  have hd : ∀ r, stockMovementsUsing Op.delete ctx r = false := fun r => rfl
  constructor
  · simp [rlsUpdate, hu]
  · simp [rlsDelete, hd]

/-! ## Lifecycle triggers -/

/-- The tables of the schema that carry an `updated_at` column. -/
inductive GovernedTable
  | profiles
  | warehouses
  | categories
  | products
  | receipts
  | deliveries
deriving DecidableEq, Repr

/-- Which tables have a BEFORE UPDATE trigger invoking `handle_updated_at`:
the migrations create exactly one such trigger, `profiles_updated_at` on
`profiles`, and none on any other table. -/
def hasUpdatedAtTrigger : GovernedTable → Bool
  | GovernedTable.profiles => true
  | _ => false

/-- `handle_updated_at` applied to a `profiles` NEW row:
`NEW.updated_at = now(); RETURN NEW`. -/
def handle_updated_at_profile (now : Nat) (p : Profile) : Profile :=
  { p with updated_at := now }

/-- `handle_updated_at` applied to a `warehouses` NEW row. -/
def handle_updated_at_warehouse (now : Nat) (w : Warehouse) : Warehouse :=
  { w with updated_at := now }

/-- UPDATE of one `profiles` row: the statement's SET clause produces the
NEW row, then the table's BEFORE UPDATE trigger (when one is declared)
rewrites it before the write commits. -/
def updateProfileRow (now : Nat) (upd : Profile → Profile) (p : Profile) : Profile :=
  if hasUpdatedAtTrigger GovernedTable.profiles then
    handle_updated_at_profile now (upd p)
  else
    upd p

/-- UPDATE of one `warehouses` row: same shape as `updateProfileRow`, with
the trigger catalog consulted for `warehouses`. -/
def updateWarehouseRow (now : Nat) (upd : Warehouse → Warehouse) (w : Warehouse) : Warehouse :=
  if hasUpdatedAtTrigger GovernedTable.warehouses then
    handle_updated_at_warehouse now (upd w)
  else
    upd w

/-- A row of `auth.users` as `handle_new_user` reads it: id, email, and the
`raw_user_meta_data->>'full_name'` attribute (NULL when omitted at signup). -/
structure AuthUser where
  id : UserId
  email : String
  raw_user_meta_data_full_name : Option String
deriving DecidableEq, Repr

/-- SQL `COALESCE(x, '')` on a nullable text value. -/
def coalesceText (s : Option String) : String :=
  match s with
  | some v => v
  | none => ""

/-- `handle_new_user`, fired AFTER INSERT ON auth.users:
`INSERT INTO profiles (id, full_name, email) VALUES (NEW.id,
COALESCE(NEW.raw_user_meta_data->>'full_name', ''), NEW.email)`;
`created_at`/`updated_at` take their column default `now()`. -/
def handle_new_user (now : Nat) (u : AuthUser) (profiles : List Profile) : List Profile :=
  profiles ++ [⟨u.id, coalesceText u.raw_user_meta_data_full_name, u.email, now, now⟩]

/-! ## Deletes under ON DELETE RESTRICT -/

/-- Outcome of a DELETE statement: the database afterwards and the error
surfaced to the caller, if any. -/
structure DeleteOutcome where
  db : DB
  err : Option DbError
deriving Repr

/-- `DELETE FROM warehouses WHERE id = wid`: the ON DELETE RESTRICT foreign
keys from `receipts.warehouse_id`, `deliveries.warehouse_id` and
`stock_movements.warehouse_id` reject the delete while any referencing row
exists, leaving the database unchanged. -/
def deleteWarehouse (db : DB) (wid : Uuid) : DeleteOutcome :=
  if db.receipts.any (fun r => r.warehouse_id == wid) ||
     db.deliveries.any (fun d => d.warehouse_id == wid) ||
     db.stock_movements.any (fun m => m.warehouse_id == wid) then
    ⟨db, some DbError.restrictViolation⟩
  else
    ⟨{ db with warehouses := db.warehouses.filter fun x => !(x.id == wid) }, none⟩

/-- `DELETE FROM products WHERE id = pid`: the ON DELETE RESTRICT foreign
keys from `receipt_lines.product_id`, `delivery_lines.product_id` and
`stock_movements.product_id` reject the delete while any referencing row
exists, leaving the database unchanged. -/
def deleteProduct (db : DB) (pid : Uuid) : DeleteOutcome :=
  if db.receipt_lines.any (fun l => l.product_id == pid) ||
     db.delivery_lines.any (fun l => l.product_id == pid) ||
     db.stock_movements.any (fun m => m.product_id == pid) then
    ⟨db, some DbError.restrictViolation⟩
  else
    ⟨{ db with products := db.products.filter fun x => !(x.id == pid) }, none⟩

/-! ## user_roles policies -/

/-- USING predicate of "Admins can view all roles" — the only SELECT policy
on `user_roles`: `has_role(auth.uid(), 'admin')`. `has_role` runs SECURITY
DEFINER against the same `user_roles` table, outside recursive policy
evaluation. -/
def userRolesSelectUsing (uid : Option UserId) (tbl : List UserRole)
    (_r : UserRole) : Bool :=
  authHasRole uid tbl AppRole.admin

/-- SELECT on `user_roles` under RLS: rows failing the USING predicate are
silently absent from the result. -/
def selectUserRoles (uid : Option UserId) (tbl : List UserRole) : List UserRole :=
  tbl.filter fun r => userRolesSelectUsing uid tbl r

/-- INSERT on `user_roles`: "Admins can insert roles" WITH CHECK
`has_role(auth.uid(), 'admin')`; a failing check raises a permission error
and writes nothing. The UNIQUE(user_id, role) constraint rejects a
duplicate pair. -/
def insertUserRole (uid : Option UserId) (tbl : List UserRole) (row : UserRole) :
    Except DbError (List UserRole) :=
  if !(authHasRole uid tbl AppRole.admin) then
    Except.error DbError.permissionDenied
  else if tbl.any fun ur => ur.user_id == row.user_id && ur.role == row.role then
    Except.error DbError.uniqueViolation
  else
    Except.ok (tbl ++ [row])

/-- DELETE on `user_roles`: "Admins can delete roles" USING
`has_role(auth.uid(), 'admin')`; rows invisible under the policy are
skipped silently, and the caller observes the affected-row count. -/
def deleteUserRoles (uid : Option UserId) (tbl : List UserRole)
    (cond : UserRole → Bool) : List UserRole × Nat :=
  (tbl.filter fun r => !(authHasRole uid tbl AppRole.admin && cond r),
   (tbl.filter fun r => authHasRole uid tbl AppRole.admin && cond r).length)

/-! ## Document and line UPDATE policies -/

/-- USING predicate of "Staff can update own receipts or managers/admins
can update all": `created_by = auth.uid() OR has_role(auth.uid(), 'admin')
OR has_role(auth.uid(), 'manager')`; SQL equality against a NULL side is
not true. -/
def receiptsUpdateUsing (ctx : Ctx) (r : Receipt) : Bool :=
  (match r.created_by, ctx.uid with
   | some c, some u => c == u
   | _, _ => false) ||
  authHasRole ctx.uid ctx.user_roles AppRole.admin ||
  authHasRole ctx.uid ctx.user_roles AppRole.manager

/-- USING predicate of "Staff can update own deliveries or managers/admins
can update all". -/
def deliveriesUpdateUsing (ctx : Ctx) (d : Delivery) : Bool :=
  (match d.created_by, ctx.uid with
   | some c, some u => c == u
   | _, _ => false) ||
  authHasRole ctx.uid ctx.user_roles AppRole.admin ||
  authHasRole ctx.uid ctx.user_roles AppRole.manager

/-- USING predicate of "Users can update receipt lines":
`auth.uid() IS NOT NULL`, independent of the row and of roles. -/
def receiptLinesUpdateUsing (ctx : Ctx) (_l : ReceiptLine) : Bool :=
  ctx.uid.isSome

/-- USING predicate of "Users can update delivery lines":
`auth.uid() IS NOT NULL`, independent of the row and of roles. -/
def deliveryLinesUpdateUsing (ctx : Ctx) (_l : DeliveryLine) : Bool :=
  ctx.uid.isSome

/-! ## Receipts page controller -/

/-- `Receipts.handleSubmit` reference generation: `RCP-{Date.now()}`. -/
def mkReceiptReference (epochMillis : Nat) : String :=
  "RCP-" ++ toString epochMillis

/-- INSERT INTO `receipts`: the UNIQUE constraint on `reference` rejects a
row whose reference is already present; a rejected insert writes nothing. -/
def insertReceipt (tbl : List Receipt) (r : Receipt) : Except DbError (List Receipt) :=
  if tbl.any fun x => x.reference == r.reference then
    Except.error DbError.uniqueViolation
  else
    Except.ok (tbl ++ [r])

/-- The row `Receipts.handleSubmit` submits: synthesized reference
`RCP-{now}`, the form's supplier/warehouse/scheduled-date fields, status
`draft`; id, created_by and the timestamps come from column defaults. -/
def handleSubmitReceiptRow (id : Uuid) (nowMillis : Nat) (supplier : String)
    (wid : Uuid) (sched : Option String) (uid : Option UserId)
    (createdAt : Nat) : Receipt :=
  ⟨id, mkReceiptReference nowMillis, wid, supplier, StockStatus.draft, sched,
    none, none, uid, createdAt, createdAt⟩

/-! ## Dashboard controller -/

/-- The four numbers `Dashboard.fetchStats` renders. -/
structure DashboardStats where
  totalProducts : Nat
  lowStockProducts : Nat
  pendingReceipts : Nat
  pendingDeliveries : Nat
deriving DecidableEq, Repr

/-- `SELECT count(*) FROM products WHERE is_active = true`. -/
def countActiveProducts (ps : List Product) : Nat :=
  (ps.filter fun p => p.is_active).length

/-- `Dashboard.fetchStats`: both product queries count active products (the
low-stock query is the same count, a placeholder); `lowStockProducts` is
`Math.floor(count * 0.15)`, modelled as the exact `15 * count / 100` floor
(the double-precision product never crosses an integer boundary for any
realizable row count); the pending counts filter on status `draft` or
`waiting`. -/
def fetchStats (db : DB) : DashboardStats :=
  ⟨countActiveProducts db.products,
   countActiveProducts db.products * 15 / 100,
   (db.receipts.filter fun r =>
     r.status == StockStatus.draft || r.status == StockStatus.waiting).length,
   (db.deliveries.filter fun d =>
     d.status == StockStatus.draft || d.status == StockStatus.waiting).length⟩

/-! ## Sample rows used by the closed witness statements -/

def sampleWarehouse : Warehouse :=
  ⟨1, "Main Warehouse", "WH-MAIN", none, true, 0, 0⟩

def sampleNewUser : AuthUser :=
  ⟨5, "new@example.com", none⟩

def samplePriorProfiles : List Profile :=
  [⟨1, "Ann", "ann@example.com", 0, 0⟩]

def sampleDB : DB :=
  ⟨[], [], [⟨1, "Main Warehouse", "WH-MAIN", none, true, 0, 0⟩], [],
   [⟨2, "Widget", "SKU-1", none, "unit", 0, none, true, 0, 0⟩],
   [], [], [], [],
   [⟨9, 2, 1, MovementType.receipt, none, 50, 50, none, some 1, 0⟩]⟩

def sampleStaffRoles : List UserRole :=
  [⟨10, 1, AppRole.staff, 0⟩]

def sampleReceipt : Receipt :=
  ⟨3, mkReceiptReference 1000, 1, "ACME", StockStatus.draft, none, none, none,
    some 2, 0, 0⟩

def sampleDelivery : Delivery :=
  ⟨4, "DEL-1000", 1, "Bob", StockStatus.draft, none, none, none, some 2, 0, 0⟩

def sampleReceiptLine : ReceiptLine :=
  ⟨5, 3, 2, 10, 0, 0⟩

def sampleDeliveryLine : DeliveryLine :=
  ⟨6, 4, 2, 4, 0, 0⟩

def rcptA : Receipt :=
  handleSubmitReceiptRow 1 1700000000000 "ACME" 1 none (some 1) 0

def rcptB : Receipt :=
  handleSubmitReceiptRow 2 1700000000000 "BuildCo" 1 none (some 2) 0

def dashDB1 : DB :=
  ⟨[], [], [], [],
   [⟨2, "Widget", "SKU-1", none, "unit", 0, none, true, 0, 0⟩,
    ⟨3, "Gadget", "SKU-2", none, "unit", 0, none, false, 0, 0⟩],
   [], [], [], [], []⟩

def dashDB2 : DB :=
  ⟨[], [], [], [],
   [⟨4, "Sprocket", "SKU-3", none, "unit", 99, none, true, 0, 0⟩],
   [], [], [], [],
   [⟨9, 4, 1, MovementType.adjustment, none, -5, -5, none, none, 0⟩]⟩

/-! ## Claim theorems C3 - C10 -/

/-- C3 counterexample: the migrations attach `handle_updated_at` only to
`profiles`, so an update to a `warehouses` row at time 100 leaves the row's
`updated_at` untouched — the claim that the stamper fires on every governed
table fails on `warehouses`. -/
theorem warehouses_update_skips_timestamp :
    (updateWarehouseRow 100 (fun w => { w with is_active := false })
        sampleWarehouse).updated_at ≠ 100 := by
  decide

/-- C3 amended: the timestamp-stamper trigger is attached to `profiles`
only; on any update to a `profiles` row it unconditionally overwrites
`updated_at` with the current time before the write commits, and no other
governed table has the trigger. -/
theorem updated_at_trigger_on_profiles (now : Nat) (upd : Profile → Profile)
    (p : Profile) :
    (updateProfileRow now upd p).updated_at = now ∧
    ∀ t : GovernedTable, hasUpdatedAtTrigger t = (t == GovernedTable.profiles) := by
  refine ⟨rfl, ?_⟩
  intro t
  cases t <;> rfl

/-- C4. For a newly created identity (no profile with its id exists yet),
the provisioner inserts exactly one `profiles` row, whose id and email are
the identity's and whose full_name is the metadata attribute coalesced to
the empty string when absent. -/
theorem handle_new_user_provisions (now : Nat) (u : AuthUser) (ps : List Profile)
    (hfresh : ps.all (fun q => q.id != u.id) = true) :
    (handle_new_user now u ps).filter (fun q => q.id == u.id) =
      [⟨u.id, coalesceText u.raw_user_meta_data_full_name, u.email, now, now⟩] ∧
    coalesceText none = "" := by
  constructor
  · have h1 : ps.filter (fun q => q.id == u.id) = [] := by
      rw [List.filter_eq_nil_iff]
      intro a ha
      have h2 := List.all_eq_true.mp hfresh a ha
      simpa using h2
    simp [handle_new_user, List.filter_append, h1]
  · rfl

theorem handle_new_user_provisions_witness :
    (samplePriorProfiles.all fun q => q.id != sampleNewUser.id) = true ∧
    ((handle_new_user 7 sampleNewUser samplePriorProfiles).filter
        (fun q => q.id == sampleNewUser.id) =
      [⟨sampleNewUser.id, coalesceText sampleNewUser.raw_user_meta_data_full_name,
        sampleNewUser.email, 7, 7⟩] ∧
      coalesceText none = "") :=
  ⟨by decide,
   handle_new_user_provisions 7 sampleNewUser samplePriorProfiles (by decide)⟩

/-- C5. A warehouse referenced by a stock movement cannot be deleted, and a
product referenced by a stock movement cannot be deleted: both deletes are
rejected with a restrict violation and the database is left unchanged (the
warehouse and product rows remain in place). -/
theorem restrict_delete_referenced (db : DB) (wid pid : Uuid)
    (hw : db.stock_movements.any (fun m => m.warehouse_id == wid) = true)
    (hp : db.stock_movements.any (fun m => m.product_id == pid) = true) :
    deleteWarehouse db wid = ⟨db, some DbError.restrictViolation⟩ ∧
    deleteProduct db pid = ⟨db, some DbError.restrictViolation⟩ := by
  constructor
  · simp [deleteWarehouse, hw]
  · simp [deleteProduct, hp]

theorem restrict_delete_referenced_witness :
    (sampleDB.stock_movements.any fun m => m.warehouse_id == 1) = true ∧
    (sampleDB.stock_movements.any fun m => m.product_id == 2) = true ∧
    (deleteWarehouse sampleDB 1 = ⟨sampleDB, some DbError.restrictViolation⟩ ∧
     deleteProduct sampleDB 2 = ⟨sampleDB, some DbError.restrictViolation⟩) :=
  ⟨by decide, by decide,
   restrict_delete_referenced sampleDB 1 2 (by decide) (by decide)⟩

/-- C6. A `user_roles` insert or delete succeeds only for an admin caller:
for any caller not holding the admin role (including the unauthenticated
one), the insert raises permission-denied and writes nothing, and the
delete removes nothing and reports zero affected rows. -/
theorem user_roles_admin_only (uid : Option UserId) (tbl : List UserRole)
    (row : UserRole) (cond : UserRole → Bool)
    (h : authHasRole uid tbl AppRole.admin = false) :
    insertUserRole uid tbl row = Except.error DbError.permissionDenied ∧
    (deleteUserRoles uid tbl cond).1 = tbl ∧
    (deleteUserRoles uid tbl cond).2 = 0 := by
  refine ⟨?_, ?_, ?_⟩
  · simp [insertUserRole, h]
  · simp [deleteUserRoles, h]
  · simp [deleteUserRoles, h]

theorem user_roles_admin_only_witness :
    authHasRole (some 1) sampleStaffRoles AppRole.admin = false ∧
    (insertUserRole (some 1) sampleStaffRoles ⟨11, 2, AppRole.manager, 0⟩ =
        Except.error DbError.permissionDenied ∧
      (deleteUserRoles (some 1) sampleStaffRoles fun _ => true).1 =
        sampleStaffRoles ∧
      (deleteUserRoles (some 1) sampleStaffRoles fun _ => true).2 = 0) :=
  ⟨by decide,
   user_roles_admin_only (some 1) sampleStaffRoles ⟨11, 2, AppRole.manager, 0⟩
     (fun _ => true) (by decide)⟩

/-- C7. Two receipt submissions whose synthesized references collide (the
controller builds `RCP-{epochMillis}`, so two same-millisecond submissions
produce the same string): with the reference not yet in the table, the
first insert commits its row, and the second insert fails with a
uniqueness violation, leaving the table — and so the first committed
row — unchanged. -/
theorem receipt_reference_collision (tbl : List Receipt) (r1 r2 : Receipt) (t : Nat)
    (h1 : r1.reference = mkReceiptReference t)
    (h2 : r2.reference = mkReceiptReference t)
    (hfresh : (tbl.any fun x => x.reference == r1.reference) = false) :
    insertReceipt tbl r1 = Except.ok (tbl ++ [r1]) ∧
    insertReceipt (tbl ++ [r1]) r2 = Except.error DbError.uniqueViolation := by
  have heq : r1.reference = r2.reference := by rw [h1, h2]
  constructor
  · simp [insertReceipt, hfresh]
  · have hany : ((tbl ++ [r1]).any fun x => x.reference == r2.reference) = true := by
      simp [List.any_append, heq]
    simp [insertReceipt, hany]

theorem receipt_reference_collision_witness :
    rcptA.reference = mkReceiptReference 1700000000000 ∧
    rcptB.reference = mkReceiptReference 1700000000000 ∧
    (([] : List Receipt).any fun x => x.reference == rcptA.reference) = false ∧
    (insertReceipt [] rcptA = Except.ok ([] ++ [rcptA]) ∧
     insertReceipt ([] ++ [rcptA]) rcptB = Except.error DbError.uniqueViolation) :=
  ⟨rfl, rfl, rfl,
   receipt_reference_collision [] rcptA rcptB 1700000000000 rfl rfl rfl⟩

/-- C8. A select on `user_roles` by an authenticated caller who does not
hold the admin role returns the empty set — the caller's own
role-assignment rows included, since the only SELECT policy requires the
admin role. -/
theorem non_admin_select_user_roles_empty (uid : UserId) (tbl : List UserRole)
    (h : has_role tbl uid AppRole.admin = false) :
    selectUserRoles (some uid) tbl = [] := by
  simp [selectUserRoles, userRolesSelectUsing, authHasRole, h]

theorem non_admin_select_user_roles_empty_witness :
    has_role sampleStaffRoles 1 AppRole.admin = false ∧
    selectUserRoles (some 1) sampleStaffRoles = [] :=
  ⟨by decide, non_admin_select_user_roles_empty 1 sampleStaffRoles (by decide)⟩

/-- C9. The line tables are updatable by any authenticated identity: the
receipt-line and delivery-line UPDATE policies hold for every authenticated
caller regardless of the parent document's creator and of roles — while the
parent receipt/delivery UPDATE policies deny a caller who is neither the
creator nor an admin/manager. -/
theorem line_updates_ignore_creator_and_role (u : UserId) (roles : List UserRole)
    (rl : ReceiptLine) (dl : DeliveryLine) (r : Receipt) (d : Delivery)
    (hrc : r.created_by ≠ some u) (hdc : d.created_by ≠ some u)
    (hadmin : has_role roles u AppRole.admin = false)
    (hmanager : has_role roles u AppRole.manager = false) :
    receiptLinesUpdateUsing ⟨some u, roles⟩ rl = true ∧
    deliveryLinesUpdateUsing ⟨some u, roles⟩ dl = true ∧
    receiptsUpdateUsing ⟨some u, roles⟩ r = false ∧
    deliveriesUpdateUsing ⟨some u, roles⟩ d = false := by
  refine ⟨rfl, rfl, ?_, ?_⟩
  · simp only [receiptsUpdateUsing, authHasRole, hadmin, hmanager, Bool.or_false]
    cases hc : r.created_by with
    | none => rfl
    | some c =>
      have hne : c ≠ u := fun h2 => hrc (by rw [hc, h2])
      simpa using hne
  · simp only [deliveriesUpdateUsing, authHasRole, hadmin, hmanager, Bool.or_false]
    cases hd2 : d.created_by with
    | none => rfl
    | some c =>
      have hne : c ≠ u := fun h2 => hdc (by rw [hd2, h2])
      simpa using hne

theorem line_updates_ignore_creator_and_role_witness :
    sampleReceipt.created_by ≠ some 1 ∧
    sampleDelivery.created_by ≠ some 1 ∧
    has_role sampleStaffRoles 1 AppRole.admin = false ∧
    has_role sampleStaffRoles 1 AppRole.manager = false ∧
    (receiptLinesUpdateUsing ⟨some 1, sampleStaffRoles⟩ sampleReceiptLine = true ∧
     deliveryLinesUpdateUsing ⟨some 1, sampleStaffRoles⟩ sampleDeliveryLine = true ∧
     receiptsUpdateUsing ⟨some 1, sampleStaffRoles⟩ sampleReceipt = false ∧
     deliveriesUpdateUsing ⟨some 1, sampleStaffRoles⟩ sampleDelivery = false) :=
  ⟨by decide, by decide, by decide, by decide,
   line_updates_ignore_creator_and_role 1 sampleStaffRoles sampleReceiptLine
     sampleDeliveryLine sampleReceipt sampleDelivery (by decide) (by decide)
     (by decide) (by decide)⟩

/-- C10. The dashboard's Low Stock Items figure is floor(15% of the
active-product count), and it is a function of the active-product count
alone: any two database states with the same active-product count — whatever
their ledgers, balances or reorder levels — yield the same figure. -/
theorem dashboard_low_stock_from_active_count (db : DB) :
    (fetchStats db).lowStockProducts = countActiveProducts db.products * 15 / 100 ∧
    ∀ db2 : DB, countActiveProducts db2.products = countActiveProducts db.products →
      (fetchStats db2).lowStockProducts = (fetchStats db).lowStockProducts := by
  refine ⟨rfl, ?_⟩
  intro db2 h
  simp [fetchStats, h]

theorem dashboard_low_stock_from_active_count_witness :
    ((fetchStats dashDB1).lowStockProducts =
      countActiveProducts dashDB1.products * 15 / 100) ∧
    countActiveProducts dashDB2.products = countActiveProducts dashDB1.products ∧
    (fetchStats dashDB2).lowStockProducts = (fetchStats dashDB1).lowStockProducts :=
  ⟨(dashboard_low_stock_from_active_count dashDB1).1, by decide,
   (dashboard_low_stock_from_active_count dashDB1).2 dashDB2 (by decide)⟩
